import Mathlib

/-!
Verification of the cluster-mode process orchestrator (src/process.js)
against its natural-language specification.

The development shallowly embeds the module state of process.js
(module-level mutable variables) as a record, and each handler function
(exit, shutdown, reload, handleWorkerExit, handleAutoSpawn,
handleReloading, createWorker, the master- and worker-side message
handlers, and ee.start / ee.stop / ee.isMaster / ee.isCluster) as a pure
state-passing function.  External collaborators excluded by the spec
(the logger sink, the msg transport, the process-spawn facility) are
modelled at their interface: log lines, outbound envelopes, and
deterministic id/pid assignment are recorded in an effect log.
Asynchronous completion-callback sequencing (async.eachSeries over
shutdown tasks and over worker ids, emitter.once wake-ups) is embedded
as explicit queues in the state plus a request-driven step function.
-/

namespace ClusterMode

/-- Command constants of the message protocol (the CMD table of
process.js; the string prefixing is a collision-avoidance encoding with
no further semantics, so the commands are embedded as an enum). -/
inductive Cmd
  | RELOAD
  | EXIT
  | SYNC
  | MSG
deriving DecidableEq, Repr

/-- Serialized JavaScript error: the {message, stack} shape built by
exit() on the worker path and by the master drain loop. -/
structure JsError where
  message : String
  stack : String
deriving DecidableEq, Repr

/-- A JavaScript value used in the signal slot: either a signal name /
code-name string or a numeric exit code (handleWorkerExit passes the
numeric code to shutdown). -/
inductive SigVal
  | str (s : String)
  | num (n : Int)
deriving DecidableEq, Repr

/-- JavaScript truthiness of a signal-slot value. -/
def SigVal.truthy : SigVal → Bool
  | .str s => s ≠ ""
  | .num n => n ≠ 0

/-- Truthiness of an optional signal-slot value (undefined is falsy). -/
def sigTruthy : Option SigVal → Bool
  | none => false
  | some v => v.truthy

/-- Entry of workerMap: { started: Date.now(), pid }. -/
structure WorkerRec where
  started : Nat
  pid : Nat
deriving DecidableEq, Repr

/-- A registered shutdown task.  In process.js a task is a callback
receiving a completion signal; assuming (as the spec requires) that the
task invokes the signal exactly once, its observable behaviour is the
error value it passes, recorded here as the outcome field.  tid is the
registration identity used to observe which tasks executed. -/
structure STask where
  tid : Nat
  runOnMaster : Bool
  outcome : Option String
deriving DecidableEq, Repr

/-- Events emitted on the public event emitter (each ee.emit call of
process.js is one constructor application). -/
inductive Ev
  | cluster (state : String) (pid : Option Nat)
  | clusterMasterReady (pid : Nat)
  | clusterWorkerReady (pid : Nat)
  | clusterNonReady
  | autoSpawnEv (pid : Nat) (id : Nat)
  | reloadEv (state : String) (pid : Option Nat) (id : Option Nat)
  | reloadReloading (pid : Option Nat) (id : Nat)
  | reloadComplete
  | messageEv (fromId : Option Nat)
  | syncEv (map : List (Nat × WorkerRec))
  | exitEv (code : Int) (sig : Option SigVal)
deriving DecidableEq, Repr

/-- An outbound envelope handed to the msg transport (the excluded
collaborator); target none means the implicit target (master from a
worker, or a broadcast for SYNC). -/
structure SendOut where
  command : Cmd
  target : Option Nat
  error : Option JsError
  sig : Option SigVal
deriving DecidableEq, Repr

/-- Logger levels of the logger-sink interface. -/
inductive LogLevel
  | info
  | warn
  | error
  | fatal
  | verbose
deriving DecidableEq, Repr

/-- One log line handed to the logger sink; tag is a short stable label
for the message, the full text being presentation only. -/
structure LogLine where
  level : LogLevel
  tag : String
deriving DecidableEq, Repr

/-- Accumulated observable effects: public events, outbound envelopes,
log lines, and the tids of shutdown tasks that were invoked, each in
emission order. -/
structure Effects where
  events : List Ev
  sends : List SendOut
  logs : List LogLine
  tasksRun : List Nat
deriving DecidableEq, Repr

def Effects.empty : Effects := ⟨[], [], [], []⟩

instance : Append Effects :=
  ⟨fun a b => ⟨a.events ++ b.events, a.sends ++ b.sends,
               a.logs ++ b.logs, a.tasksRun ++ b.tasksRun⟩⟩

def Effects.event (f : Effects) (e : Ev) : Effects :=
  { f with events := f.events ++ [e] }

def Effects.send (f : Effects) (m : SendOut) : Effects :=
  { f with sends := f.sends ++ [m] }

def Effects.log (f : Effects) (lv : LogLevel) (t : String) : Effects :=
  { f with logs := f.logs ++ [⟨lv, t⟩] }

def Effects.task (f : Effects) (i : Nat) : Effects :=
  { f with tasksRun := f.tasksRun ++ [i] }

/-- Minimum lifespan for workers (MIN_LIFE, 10000 ms). -/
def MIN_LIFE : Nat := 10000

/-- Pid of the current (master) process, as reported by process.pid;
a fixed model constant. -/
def selfPid : Nat := 999

/-- Deterministic model of the pid the OS assigns to the forked worker
with a given cluster id (pids are opaque and distinct; process.js never
computes with them). -/
def mkPid (id : Nat) : Nat := 10000 + id

/-- Modelled from the spec: lib/sigcode is not under src/.  Its CODES
constants are opaque code names passed in the signal slot of exit();
per the spec the diagnostic module is used only for log messages, never
for control decisions.  They are modelled as nonempty (truthy) strings. -/
def CODES_FATAL_ERROR : SigVal := .str "FATAL_ERROR"

/-- Modelled from the spec: the EXPECTED code name of lib/sigcode,
companion of CODES_FATAL_ERROR. -/
def CODES_EXPECTED : SigVal := .str "EXPECTED"

/-- The module-level mutable state of process.js, together with the
queues that embed the suspended async.eachSeries iterations and the
exited flag recording a process.exit call. -/
structure St where
  numOfWorkers : Int
  autoSpawn : Bool
  syncWorker : Bool
  isReloading : Bool
  isShutdown : Bool
  isMaster : Bool
  shutdownLock : Bool
  reloaded : Int
  shutdownTasks : List STask
  workerMap : List (Nat × WorkerRec)
  workers : List Nat
  reloadQueue : List Nat
  drainQueue : List Nat
  drainErr : Option JsError
  onExitHook : Bool
  nextId : Nat
  clock : Nat
  exited : Option Int
deriving DecidableEq, Repr

/-- Initial module state before ee.start (Node assigns worker ids from 1). -/
def initSt : St :=
  { numOfWorkers := 0
    autoSpawn := false
    syncWorker := true
    isReloading := false
    isShutdown := false
    isMaster := false
    shutdownLock := false
    reloaded := 0
    shutdownTasks := []
    workerMap := []
    workers := []
    reloadQueue := []
    drainQueue := []
    drainErr := none
    onExitHook := false
    nextId := 1
    clock := 0
    exited := none }

/-- ee.isMaster: true iff the module flag isMaster is set and
numOfWorkers is truthy. -/
def eeIsMaster (s : St) : Bool := s.isMaster && s.numOfWorkers ≠ 0

/-- ee.isCluster: true iff numOfWorkers is truthy. -/
def eeIsCluster (s : St) : Bool := s.numOfWorkers ≠ 0

/-- ee.addShutdownTask: appends the task to the insertion-ordered list;
runOnMaster defaults to true when the argument is undefined. -/
def addShutdownTask (s : St) (tid : Nat) (outcome : Option String)
    (runOnMaster : Option Bool) : St :=
  { s with shutdownTasks :=
      s.shutdownTasks ++ [⟨tid, runOnMaster.getD true, outcome⟩] }

/-- syncWorkerMap: when syncWorker is on, logs and broadcasts a SYNC
envelope carrying the worker map. -/
def syncWorkerMapF (s : St) (eff : Effects) : St × Effects :=
  if s.syncWorker then
    (s, (eff.log .verbose "dispatch synchronize worker command").send
          ⟨Cmd.SYNC, none, none, none⟩)
  else (s, eff)

/-- createWorker: forks a worker (fresh id, recorded pid, started :=
now), adds it to workerMap, attaches its message listener, logs, and
synchronizes the worker map.  Returns the new id and pid alongside the
state and effects. -/
def createWorkerF (s : St) (eff : Effects) : St × Effects × Nat × Nat :=
  let id := s.nextId
  let pid := mkPid id
  let s1 : St :=
    { s with nextId := id + 1
             workers := s.workers ++ [id]
             workerMap := s.workerMap ++ [(id, ⟨s.clock, pid⟩)] }
  let eff := eff.log .info "worker created"
  let p := syncWorkerMapF s1 eff
  (p.1, p.2, id, pid)

/-- The for-loop of startMaster spawning numOfWorkers workers. -/
def spawnLoop : Nat → St → Effects → St × Effects
  | 0, s, eff => (s, eff)
  | n + 1, s, eff =>
    let p := createWorkerF s eff
    spawnLoop n p.1 p.2.1

/-- The filter applied to shutdownTasks at final shutdown: on a process
where ee.isMaster() holds only runOnMaster tasks are kept, otherwise
every task is kept. -/
def shutdownFilter (s : St) : List STask :=
  s.shutdownTasks.filter (fun t => if eeIsMaster s then t.runOnMaster else true)

/-- Tids of the tasks async.eachSeries actually invokes: the list is
walked in order and iteration stops right after the first task whose
completion signal carries an error. -/
def execUpToErr : List STask → List Nat
  | [] => []
  | t :: r =>
    match t.outcome with
    | some _ => [t.tid]
    | none => t.tid :: execUpToErr r

/-- The error with which async.eachSeries invokes its final callback:
the first task failure, if any. -/
def taskErr : List STask → Option String
  | [] => none
  | t :: r =>
    match t.outcome with
    | some e => some e
    | none => taskErr r

/-- The async.eachSeries iteration over the filtered task list inside
shutdown(): each invoked task logs and is recorded; on the first task
error the iteration stops and the error is returned. -/
def execTasks (lvl : LogLevel) : List STask → Effects → Effects × Option String
  | [], eff => (eff, none)
  | t :: r, eff =>
    let eff := (eff.log lvl "execute shutdown task").task t.tid
    match t.outcome with
    | some e => (eff, some e)
    | none => execTasks lvl r eff

/-- shutdown(errorShutdown, sig): filters the task list, runs it with
async.eachSeries, then in done(error) computes code (1 iff a task
reported an error, otherwise 0), emits the exit event with (code,
sig || null), runs the onExit hook if registered (its completion signal
is assumed to fire, per the collaborator contract), and calls
process.exit(code).  errorShutdown is only consulted for truthiness:
it selects the log level and an extra printed line. -/
def shutdownRun (s : St) (errorShutdown : Bool) (sig : Option SigVal)
    (eff : Effects) : St × Effects :=
  let lvl := if errorShutdown then LogLevel.fatal else LogLevel.info
  let taskList := shutdownFilter s
  let eff := eff.log .verbose "number of shutdown tasks"
  let (eff, err) := execTasks lvl taskList eff
  let code : Int := if err.isSome then 1 else 0
  let eff := eff.log lvl "exit pid"
  let eff := if errorShutdown then eff.log lvl "error shutdown detail" else eff
  let sigEmit : Option SigVal :=
    match sig with
    | some v => if v.truthy then some v else none
    | none => none
  let eff := eff.event (.exitEv code sigEmit)
  ({ s with exited := some code }, eff)

/-- Wake-up of the reload async.eachSeries: emitter.emit of the
reloaded event fires the pending emitter.once listener, whose next()
runs the iteratee for the next snapshot id: it re-registers the
listener and sends that worker a RELOAD envelope. -/
def resumeReload (s : St) (eff : Effects) : St × Effects :=
  match s.reloadQueue with
  | [] => (s, eff)
  | w :: rest =>
    ({ s with reloadQueue := rest },
     eff.send ⟨Cmd.RELOAD, some w, none, none⟩)

/-- Wake-up of the shutdown drain async.eachSeries: emitter.emit of the
workerExit event fires the pending emitter.once listener, whose next()
runs the iteratee for the next snapshot id: it re-registers the
listener, logs through the print function captured by the exit()
closure (fatal when exit was entered with an error, which is exactly
when the captured serialized error is present, info otherwise), and
sends that worker an EXIT envelope carrying that serialized error. -/
def resumeDrain (s : St) (eff : Effects) : St × Effects :=
  match s.drainQueue with
  | [] => (s, eff)
  | w :: rest =>
    ({ s with drainQueue := rest },
     (eff.log (if s.drainErr.isSome then .fatal else .info)
         "instruct worker process to exit").send
       ⟨Cmd.EXIT, some w, s.drainErr, none⟩)

/-- handleAutoSpawn(worker, workerData, code, sig): when not shutting
down, an unexpected worker death either permanently decrements
numOfWorkers (lifetime below MIN_LIFE, no respawn) or forks a
replacement and emits the auto.spawn event.  The JavaScript would throw
on a missing workerData record; the step function only delivers exit
events for registered workers, so the none branch is never reached and
is embedded as the identity. -/
def handleAutoSpawn (s : St) (wd : Option WorkerRec) (eff : Effects) :
    St × Effects :=
  if !s.isShutdown then
    let eff := eff.log .error "worker exited unexpectedly"
    match wd with
    | none => (s, eff)
    | some w =>
      if s.clock - w.started < MIN_LIFE then
        ({ s with numOfWorkers := s.numOfWorkers - 1 },
         eff.log .error "below min life, auto-respawning ignored")
      else
        let p := createWorkerF s eff
        (p.1, p.2.1.event (.autoSpawnEv p.2.2.2 p.2.2.1))
  else
    (s, eff.log .info "shutdown instructed, no auto-respawn")

/-- handleReloading(): forks the replacement, emits the internal
reloaded wake-up (resuming the reload series, which sends RELOAD to the
next snapshot id), increments the reloaded counter, emits the
reload-progress events (note: the reload.reloading emission passes
worker.pid, which is undefined on a cluster worker object, hence none),
and when reloaded equals numOfWorkers resets the flags and emits the
reload-complete events. -/
def handleReloading (s : St) (eff : Effects) : St × Effects :=
  let p := createWorkerF s eff
  let nid := p.2.2.1
  let npid := p.2.2.2
  let q := resumeReload p.1 p.2.1
  let s2 := q.1
  let s3 := { s2 with reloaded := s2.reloaded + 1 }
  let eff := q.2.log .info "reloaded a worker process"
  let eff := eff.event (.reloadEv "reloading" (some npid) (some nid))
  let eff := eff.event (.reloadReloading none nid)
  if s3.reloaded == s3.numOfWorkers then
    let s4 := { s3 with isReloading := false, reloaded := 0 }
    let eff := (eff.event (.reloadEv "complete" none none)).event .reloadComplete
    (s4, eff.log .info "all workers reloaded")
  else
    (s3, eff)

/-- handleWorkerExit(worker, code, sig): the cluster exit listener on
the master.  By the time it runs the dead worker is gone from
cluster.workers; the handler logs, removes the workerMap record, then
branches: reload continuation; else auto-spawn policy when the death
was not intentional (worker.suicide) and autoSpawn is on; then, if no
workers remain, triggers final shutdown when shutting down or the code
is nonzero; otherwise re-synchronizes the map and emits the internal
workerExit wake-up that resumes a pending shutdown drain. -/
def handleWorkerExit (s : St) (id : Nat) (code : Int) (suicide : Bool)
    (eff : Effects) : St × Effects :=
  let s := { s with workers := s.workers.erase id }
  let eff := eff.log .info "cluster process is exiting"
  let wd := s.workerMap.lookup id
  let s := { s with workerMap := s.workerMap.filter (fun p => p.1 != id) }
  if s.isReloading then
    handleReloading s eff
  else
    let p := if !suicide && s.autoSpawn then handleAutoSpawn s wd eff else (s, eff)
    let s := p.1
    let eff := p.2
    if s.workers.isEmpty then
      let eff := eff.log .info "no more workers running"
      if s.isShutdown || code ≠ 0 then
        let eff := eff.log .info "all workers disconnected"
        shutdownRun s false (some (.num code)) eff
      else
        (s, eff)
    else
      let q := syncWorkerMapF s eff
      resumeDrain q.1 q.2

/-- reload(): the hang-up signal handler.  Anywhere but on the process
whose module isMaster flag is set it returns immediately; on the master
with truthy numOfWorkers it sets isReloading, resets the counter,
snapshots the worker ids and starts the sequential RELOAD series
(sending to the first id and queueing the rest). -/
def reloadFun (s : St) (eff : Effects) : St × Effects :=
  if !s.isMaster then
    (s, eff)
  else
    let eff := eff.log .info "reloading"
    if s.numOfWorkers ≠ 0 then
      let s := { s with isReloading := true, reloaded := 0 }
      match s.workers with
      | [] => (s, eff)
      | w :: rest =>
        ({ s with reloadQueue := rest },
         eff.send ⟨Cmd.RELOAD, some w, none, none⟩)
    else
      (s, eff)

/-- exit(errorExit, sig): on a worker, forwards an EXIT envelope with
the serialized error to the master and returns.  On the master, the
shutdownLock guard only logs (when an error accompanied the request)
and returns; otherwise the lock is set, and either the worker pool is
drained first (EXIT sent to the first worker, remainder queued behind
the workerExit wake-ups; with no workers left, shutdown(sig) runs —
note the source passes sig in the errorShutdown slot there), or, with
numOfWorkers zero, shutdown(errorExit, sig) runs directly. -/
def exitFun (s : St) (errorExit : Option JsError) (sig : Option SigVal)
    (eff : Effects) : St × Effects :=
  let lvl := if errorExit.isSome then LogLevel.fatal else LogLevel.info
  if !s.isMaster then
    (s, eff.send ⟨Cmd.EXIT, none, errorExit, sig⟩)
  else if s.shutdownLock then
    (s, if errorExit.isSome then eff.log lvl "exit instruction by error" else eff)
  else
    let s := { s with shutdownLock := true }
    let eff := eff.log lvl (if errorExit.isSome then "exiting with an error" else "exiting")
    if s.numOfWorkers ≠ 0 && s.isMaster then
      let s := { s with isShutdown := true }
      if s.workers.isEmpty then
        let eff := eff.log lvl "master is exiting"
        shutdownRun s (sigTruthy sig) none eff
      else
        match s.workers with
        | [] => (s, eff)
        | w :: rest =>
          let eff := (eff.log lvl "instruct worker process to exit").send
            ⟨Cmd.EXIT, some w, errorExit, none⟩
          ({ s with drainQueue := rest, drainErr := errorExit }, eff)
    else if s.numOfWorkers == 0 then
      shutdownRun s errorExit.isSome sig eff
    else
      (s, eff)

/-- ee.stop(error): calls exit with the error and the FATAL_ERROR or
EXPECTED code name depending on the presence of the error. -/
def eeStop (s : St) (error : Option JsError) (eff : Effects) : St × Effects :=
  exitFun s error (some (if error.isSome then CODES_FATAL_ERROR else CODES_EXPECTED)) eff

/-- An inbound inter-process message as seen by a message listener:
either a payload on which JSON.parse throws (the raw string is kept,
since the handlers fall through to it), or a parsed envelope whose
fields may each be absent. -/
inductive RawMsg
  | malformed (raw : String)
  | envelope (command : Option Cmd) (error : Option JsError)
      (sig : Option SigVal) (toId : Option Nat)
      (map : List (Nat × WorkerRec)) (fromId : Option Nat)
deriving DecidableEq, Repr

/-- The worker-to-master message listener attached in createWorker: on
a parse failure it logs a warning and falls through with the raw string,
whose command property is undefined, reaching the default branch; a MSG
envelope is relayed by the transport; an EXIT envelope logs and calls
exit(data.error, data.sig || SIGTERM). -/
def masterOnMessage (s : St) (m : RawMsg) (eff : Effects) : St × Effects :=
  match m with
  | .malformed _ =>
    (s, eff.log .warn "message data not JSON")
  | .envelope cmd err sg toId _ _ =>
    match cmd with
    | some .MSG =>
      (s, eff.send ⟨Cmd.MSG, toId, none, none⟩)
    | some .EXIT =>
      let eff := eff.log .info "exit instruction from worker"
      let sigArg : SigVal :=
        match sg with
        | some v => if v.truthy then v else .str "SIGTERM"
        | none => .str "SIGTERM"
      exitFun s err (some sigArg) eff
    | _ => (s, eff)

/-- The master-to-worker message listener attached in startWorker: on a
parse failure it logs a warning and falls through with the raw string,
which has no command property, so the handler returns; EXIT runs the
local shutdown with the carried error; RELOAD runs the local shutdown;
SYNC replaces the synced worker map and emits the sync event; MSG emits
the message event. -/
def workerOnMessage (s : St) (m : RawMsg) (eff : Effects) : St × Effects :=
  match m with
  | .malformed _ =>
    (s, eff.log .warn "message data not JSON")
  | .envelope cmd err _ _ map fromId =>
    match cmd with
    | none => (s, eff)
    | some .EXIT =>
      let eff := eff.log .info "shutting down worker process for exit"
      shutdownRun s err.isSome none eff
    | some .RELOAD =>
      let eff := eff.log .info "shutting down worker process for reload"
      shutdownRun s false none eff
    | some .SYNC =>
      let eff := eff.log .info "synchronize worker map"
      let s := { s with workerMap := map }
      (s, eff.event (.syncEv map))
    | some .MSG =>
      (s, eff.event (.messageEv fromId))

/-- Arrival-order processing of a list of inbound messages by the
master-side listener. -/
def processMasterMsgs (s : St) : List RawMsg → St × Effects
  | [] => (s, Effects.empty)
  | m :: ms =>
    let p := masterOnMessage s m Effects.empty
    let q := processMasterMsgs p.1 ms
    (q.1, p.2 ++ q.2)

/-- Arrival-order processing of a list of inbound messages by the
worker-side listener. -/
def processWorkerMsgs (s : St) : List RawMsg → St × Effects
  | [] => (s, Effects.empty)
  | m :: ms =>
    let p := workerOnMessage s m Effects.empty
    let q := processWorkerMsgs p.1 ms
    (q.1, p.2 ++ q.2)

/-- The config object accepted by ee.start; absent fields are none. -/
structure Config where
  max : Option Int
  autoSpawn : Option Bool
  sync : Option Bool
deriving DecidableEq, Repr

/-- ee.start(config) followed by start(): resolves the module flags
from the config (max === 0 means zero workers, an absent max falls back
to the cpu-count default; sync defaults to true; syncWorker is forced
off outside cluster mode), then startListeners and startClusterMode:
with more than one worker the master spawns the pool and emits the
master-ready events (a non-primary process emits the worker-ready
events); otherwise the non-ready events are emitted. -/
def eeStart (clusterIsMaster : Bool) (defaultMax : Int) (cfg : Config)
    (s : St) : St × Effects :=
  let s := { s with isMaster := clusterIsMaster }
  let numW : Int :=
    match cfg.max with
    | some m => m
    | none => defaultMax
  let s := { s with numOfWorkers := numW
                    autoSpawn := cfg.autoSpawn.getD false
                    syncWorker :=
                      match cfg.sync with
                      | none => true
                      | some b => b }
  let s := if eeIsCluster s then s else { s with syncWorker := false }
  let eff := Effects.empty
  let eff := if s.isMaster then
      ((eff.log .info "number of workers").log .info "auto re-spawn").log
        .info "synchronize worker map setting"
    else eff
  let eff := eff.log .info "start listeners"
  if numW > 1 then
    if clusterIsMaster then
      let eff := eff.log .info "starting master process"
      let p := spawnLoop numW.toNat s eff
      let eff := (p.2.event (.cluster "master.ready" (some selfPid))).event
        (.clusterMasterReady selfPid)
      (p.1, eff.log .info "starting in cluster mode")
    else
      let eff := (eff.log .info "worker process started").event
        (.cluster "worker.ready" (some selfPid))
      (s, eff.event (.clusterWorkerReady selfPid))
  else
    let eff := (eff.event (.cluster "non.ready" none)).event .clusterNonReady
    (s, if s.isMaster then eff.log .info "starting in cluster mode" else eff)

/-- External stimuli driving the embedded process: an explicit stop
call, an OS signal, an observed worker exit (code and the intentional
flag as delivered by the cluster facility), an inbound message from a
worker, and the passing of wall-clock time. -/
inductive Req
  | stop (err : Option JsError)
  | sigReq (name : String)
  | workerExit (id : Nat) (code : Int) (suicide : Bool)
  | fromWorker (m : RawMsg)
  | tick (dt : Nat)
deriving DecidableEq, Repr

/-- Whether a request is an exit request (an explicit stop call or one
of the termination signals routed into exit by startListeners). -/
def Req.isExitReq : Req → Bool
  | .stop _ => true
  | .sigReq n => n == "SIGINT" || n == "SIGQUIT" || n == "SIGTERM"
  | _ => false

/-- One dispatch of the single-threaded event loop: after process.exit
nothing runs; a stop call enters ee.stop; the hang-up signal enters
reload and the termination signals enter exit; a worker-exit
observation for a registered worker enters handleWorkerExit; an inbound
worker message enters the master-side listener; a tick advances the
monotonic clock. -/
def dispatch (s : St) (r : Req) : St × Effects :=
  if s.exited.isSome then (s, Effects.empty)
  else
    match r with
    | .stop err => eeStop s err Effects.empty
    | .sigReq name =>
      if name == "SIGHUP" then reloadFun s Effects.empty
      else if name == "SIGINT" || name == "SIGQUIT" || name == "SIGTERM" then
        exitFun s none (some (.str name)) Effects.empty
      else (s, Effects.empty)
    | .workerExit id code suicide =>
      if s.workers.contains id then
        handleWorkerExit s id code suicide Effects.empty
      else (s, Effects.empty)
    | .fromWorker m => masterOnMessage s m Effects.empty
    | .tick dt => ({ s with clock := s.clock + dt }, Effects.empty)

/-- Dispatches a list of requests in order, accumulating effects. -/
def runTrace (s : St) : List Req → St × Effects
  | [] => (s, Effects.empty)
  | r :: rs =>
    let p := dispatch s r
    let q := runTrace p.1 rs
    (q.1, p.2 ++ q.2)

/-- Whether an event is the exit event. -/
def Ev.isExitEv : Ev → Bool
  | .exitEv _ _ => true
  | _ => false

/-- Number of exit events in an event list. -/
def countExitEv (evs : List Ev) : Nat := (evs.filter Ev.isExitEv).length

/-- Whether an event is a reload-progress event (the reload event in
its reloading state). -/
def Ev.isReloadProgress : Ev → Bool
  | .reloadEv st _ _ => st == "reloading"
  | _ => false

/-- Whether an event is the reload-complete event. -/
def Ev.isReloadCompleteEv : Ev → Bool
  | .reloadComplete => true
  | _ => false

/-- Whether an event is the auto.spawn event. -/
def Ev.isAutoSpawnEv : Ev → Bool
  | .autoSpawnEv _ _ => true
  | _ => false

/-- The expected public-event emissions of n successive reload
continuations whose replacement workers get ids startId, startId+1, …:
each continuation emits the reload event in its reloading state with
the new pid and id, then the reload.reloading event (with the undefined
worker.pid). -/
def progressEvents (startId : Nat) : Nat → List Ev
  | 0 => []
  | n + 1 =>
    .reloadEv "reloading" (some (mkPid startId)) (some startId) ::
      .reloadReloading none startId :: progressEvents (startId + 1) n

/-- Whether an event is the cluster.non.ready event. -/
def Ev.isNonReadyEv : Ev → Bool
  | .clusterNonReady => true
  | _ => false

/-- The exit code shutdown computes for a given state: 1 iff some
filtered task signals an error, 0 otherwise; independent of the
errorShutdown argument. -/
def shutdownCode (s : St) : Int :=
  if (taskErr (shutdownFilter s)).isSome then 1 else 0

theorem events_append (a b : Effects) : (a ++ b).events = a.events ++ b.events := rfl

theorem sends_append (a b : Effects) : (a ++ b).sends = a.sends ++ b.sends := rfl

theorem logs_append (a b : Effects) : (a ++ b).logs = a.logs ++ b.logs := rfl

theorem tasksRun_append (a b : Effects) : (a ++ b).tasksRun = a.tasksRun ++ b.tasksRun := rfl

theorem empty_append (a : Effects) : Effects.empty ++ a = a := by
  cases a with
  | mk ev se lo ta =>
    show Effects.mk ([] ++ ev) ([] ++ se) ([] ++ lo) ([] ++ ta) = Effects.mk ev se lo ta
    simp

theorem append_empty (a : Effects) : a ++ Effects.empty = a := by
  cases a with
  | mk ev se lo ta =>
    show Effects.mk (ev ++ []) (se ++ []) (lo ++ []) (ta ++ []) = Effects.mk ev se lo ta
    simp

theorem execTasks_snd (lvl : LogLevel) (l : List STask) (eff : Effects) :
    (execTasks lvl l eff).2 = taskErr l := by
  induction l generalizing eff with
  | nil => rfl
  | cons t r ih =>
    simp only [execTasks, taskErr]
    cases t.outcome with
    | none => simp [ih]
    | some e => simp

theorem execTasks_tasksRun (lvl : LogLevel) (l : List STask) (eff : Effects) :
    (execTasks lvl l eff).1.tasksRun = eff.tasksRun ++ execUpToErr l := by
  induction l generalizing eff with
  | nil => simp [execTasks, execUpToErr]
  | cons t r ih =>
    simp only [execTasks, execUpToErr]
    cases t.outcome with
    | none => simp [ih, Effects.log, Effects.task]
    | some e => simp [Effects.log, Effects.task]

theorem execTasks_events (lvl : LogLevel) (l : List STask) (eff : Effects) :
    (execTasks lvl l eff).1.events = eff.events := by
  induction l generalizing eff with
  | nil => rfl
  | cons t r ih =>
    simp only [execTasks]
    cases t.outcome with
    | none => simp [ih, Effects.log, Effects.task]
    | some e => simp [Effects.log, Effects.task]

theorem execTasks_sends (lvl : LogLevel) (l : List STask) (eff : Effects) :
    (execTasks lvl l eff).1.sends = eff.sends := by
  induction l generalizing eff with
  | nil => rfl
  | cons t r ih =>
    simp only [execTasks]
    cases t.outcome with
    | none => simp [ih, Effects.log, Effects.task]
    | some e => simp [Effects.log, Effects.task]

theorem shutdownRun_fst (s : St) (b : Bool) (sig : Option SigVal) (eff : Effects) :
    (shutdownRun s b sig eff).1 = { s with exited := some (shutdownCode s) } := by
  simp only [shutdownRun, shutdownCode, Effects.event, Effects.log]
  simp [execTasks_snd]

theorem shutdownRun_tasksRun (s : St) (b : Bool) (sig : Option SigVal) (eff : Effects) :
    (shutdownRun s b sig eff).2.tasksRun = eff.tasksRun ++ execUpToErr (shutdownFilter s) := by
  simp only [shutdownRun, Effects.event, Effects.log]
  split <;> simp [execTasks_tasksRun, Effects.log]

theorem shutdownRun_events (s : St) (b : Bool) (sig : Option SigVal) (eff : Effects) :
    (shutdownRun s b sig eff).2.events =
      eff.events ++ [.exitEv (shutdownCode s)
        (match sig with
         | some v => if v.truthy then some v else none
         | none => none)] := by
  simp only [shutdownRun, shutdownCode, Effects.event, Effects.log]
  split <;> simp [execTasks_events, execTasks_snd, Effects.log]

theorem shutdownRun_sends (s : St) (b : Bool) (sig : Option SigVal) (eff : Effects) :
    (shutdownRun s b sig eff).2.sends = eff.sends := by
  simp only [shutdownRun, Effects.event, Effects.log]
  split <;> simp [execTasks_sends, Effects.log]

theorem syncWorkerMapF_fst (s : St) (eff : Effects) : (syncWorkerMapF s eff).1 = s := by
  unfold syncWorkerMapF
  split <;> rfl

theorem syncWorkerMapF_events (s : St) (eff : Effects) :
    (syncWorkerMapF s eff).2.events = eff.events := by
  unfold syncWorkerMapF
  split <;> simp [Effects.log, Effects.send]

theorem syncWorkerMapF_tasksRun (s : St) (eff : Effects) :
    (syncWorkerMapF s eff).2.tasksRun = eff.tasksRun := by
  unfold syncWorkerMapF
  split <;> simp [Effects.log, Effects.send]

theorem createWorkerF_fst (s : St) (eff : Effects) :
    (createWorkerF s eff).1 =
      { s with nextId := s.nextId + 1
               workers := s.workers ++ [s.nextId]
               workerMap := s.workerMap ++ [(s.nextId, ⟨s.clock, mkPid s.nextId⟩)] } := by
  simp only [createWorkerF, syncWorkerMapF_fst]

theorem createWorkerF_id (s : St) (eff : Effects) :
    (createWorkerF s eff).2.2.1 = s.nextId := by
  simp only [createWorkerF, syncWorkerMapF_fst]

theorem createWorkerF_pid (s : St) (eff : Effects) :
    (createWorkerF s eff).2.2.2 = mkPid s.nextId := by
  simp only [createWorkerF, syncWorkerMapF_fst]

theorem createWorkerF_events (s : St) (eff : Effects) :
    (createWorkerF s eff).2.1.events = eff.events := by
  simp only [createWorkerF]
  simp [syncWorkerMapF_events, Effects.log]

theorem createWorkerF_tasksRun (s : St) (eff : Effects) :
    (createWorkerF s eff).2.1.tasksRun = eff.tasksRun := by
  simp only [createWorkerF]
  simp [syncWorkerMapF_tasksRun, Effects.log]

theorem exitFun_worker (s : St) (e : Option JsError) (sig : Option SigVal)
    (eff : Effects) (hm : s.isMaster = false) :
    exitFun s e sig eff = (s, eff.send ⟨Cmd.EXIT, none, e, sig⟩) := by
  simp [exitFun, hm]

theorem exitFun_locked (s : St) (e : Option JsError) (sig : Option SigVal)
    (eff : Effects) (hm : s.isMaster = true) (hl : s.shutdownLock = true) :
    exitFun s e sig eff =
      (s, if e.isSome then eff.log .fatal "exit instruction by error" else eff) := by
  simp only [exitFun, hm, hl]
  cases e <;> simp

theorem exitFun_unlocked_zero (s : St) (e : Option JsError) (sig : Option SigVal)
    (eff : Effects) (hm : s.isMaster = true) (hl : s.shutdownLock = false)
    (hn : s.numOfWorkers = 0) :
    exitFun s e sig eff =
      shutdownRun { s with shutdownLock := true } e.isSome sig
        (eff.log (if e.isSome then .fatal else .info)
          (if e.isSome then "exiting with an error" else "exiting")) := by
  simp [exitFun, hm, hl, hn]

theorem exitFun_unlocked_drained (s : St) (e : Option JsError) (sig : Option SigVal)
    (eff : Effects) (hm : s.isMaster = true) (hl : s.shutdownLock = false)
    (hn : s.numOfWorkers ≠ 0) (hw : s.workers = []) :
    exitFun s e sig eff =
      shutdownRun { s with shutdownLock := true, isShutdown := true } (sigTruthy sig) none
        ((eff.log (if e.isSome then .fatal else .info)
            (if e.isSome then "exiting with an error" else "exiting")).log
          (if e.isSome then .fatal else .info) "master is exiting") := by
  simp [exitFun, hm, hl, hn, hw]

theorem exitFun_unlocked_drain (s : St) (e : Option JsError) (sig : Option SigVal)
    (eff : Effects) (w : Nat) (rest : List Nat)
    (hm : s.isMaster = true) (hl : s.shutdownLock = false)
    (hn : s.numOfWorkers ≠ 0) (hw : s.workers = w :: rest) :
    exitFun s e sig eff =
      ({ s with shutdownLock := true, isShutdown := true,
                drainQueue := rest, drainErr := e },
       ((eff.log (if e.isSome then .fatal else .info)
            (if e.isSome then "exiting with an error" else "exiting")).log
          (if e.isSome then .fatal else .info) "instruct worker process to exit").send
         ⟨Cmd.EXIT, some w, e, none⟩) := by
  simp [exitFun, hm, hl, hn, hw]

theorem dispatch_stop (s : St) (e : Option JsError) (hx : s.exited = none) :
    dispatch s (.stop e) =
      exitFun s e (some (if e.isSome then CODES_FATAL_ERROR else CODES_EXPECTED))
        Effects.empty := by
  simp [dispatch, hx, eeStop]

theorem runTrace_single (s : St) (r : Req) :
    runTrace s [r] = ((dispatch s r).1, (dispatch s r).2 ++ Effects.empty) := by
  simp [runTrace]

theorem taskErr_of_all_ok (l : List STask) (h : ∀ t ∈ l, t.outcome = none) :
    taskErr l = none := by
  induction l with
  | nil => rfl
  | cons t r ih =>
    have ht := h t (by simp)
    simp only [taskErr, ht]
    exact ih (fun x hx => h x (by simp [hx]))

theorem shutdownFilter_ignores_lock (s : St) (a b c : Bool) (q1 q2 : List Nat)
    (d : Option JsError) :
    shutdownFilter { s with shutdownLock := a, isShutdown := b,
                             isReloading := c, reloadQueue := q1,
                             drainQueue := q2, drainErr := d } = shutdownFilter s := rfl

theorem stopRun_exited (s : St) (e : Option JsError)
    (hm : s.isMaster = true) (hl : s.shutdownLock = false)
    (hx : s.exited = none) (hw : s.workers = []) :
    (runTrace s [Req.stop e]).1.exited = some (shutdownCode s) := by
  rw [runTrace_single, dispatch_stop s _ hx]
  by_cases hn : s.numOfWorkers = 0
  · rw [exitFun_unlocked_zero s _ _ _ hm hl hn, shutdownRun_fst]
    rfl
  · rw [exitFun_unlocked_drained s _ _ _ hm hl hn hw, shutdownRun_fst]
    rfl

theorem stopRun_tasksRun (s : St) (e : Option JsError)
    (hm : s.isMaster = true) (hl : s.shutdownLock = false)
    (hx : s.exited = none) (hw : s.workers = []) :
    (runTrace s [Req.stop e]).2.tasksRun = execUpToErr (shutdownFilter s) := by
  rw [runTrace_single, dispatch_stop s _ hx]
  by_cases hn : s.numOfWorkers = 0
  · rw [exitFun_unlocked_zero s _ _ _ hm hl hn]
    rw [tasksRun_append, shutdownRun_tasksRun]
    simp [Effects.log, Effects.empty]
    rfl
  · rw [exitFun_unlocked_drained s _ _ _ hm hl hn hw]
    rw [tasksRun_append, shutdownRun_tasksRun]
    simp [Effects.log, Effects.empty]
    rfl

/-- C1 counterexample: on a standalone master (numOfWorkers zero) with
a single shutdown task that completes successfully, stop invoked with a
non-null error makes the process exit with code 0, not 1: the fatal
error supplied to stop never reaches the exit-code computation, which
depends only on the task outcomes.  This refutes the claim that the
process eventually exits with exit code 1 on the fatal error path when
every registered shutdown task completes successfully. -/
theorem c1_counterexample :
    (runTrace { initSt with isMaster := true, shutdownTasks := [⟨1, true, none⟩] }
        [Req.stop (some ⟨"boom", "trace"⟩)]).1.exited ≠ some 1 ∧
    (runTrace { initSt with isMaster := true, shutdownTasks := [⟨1, true, none⟩] }
        [Req.stop (some ⟨"boom", "trace"⟩)]).1.exited = some 0 ∧
    (runTrace { initSt with isMaster := true, shutdownTasks := [⟨1, true, none⟩] }
        [Req.stop (some ⟨"boom", "trace"⟩)]).2.tasksRun = [1] := by
  refine ⟨?_, ?_, ?_⟩ <;> decide

/-- C1 amended: when stop is invoked with a non-null error on a master
whose worker registry is already empty, the process exit code is
shutdownCode, which is determined solely by the shutdown task outcomes:
it is 0 whenever every filtered shutdown task completes successfully
(the fatal error only changes logging), and 1 only when some task
reports failure. -/
theorem c1_amended (s : St) (e : JsError)
    (hm : s.isMaster = true) (hl : s.shutdownLock = false)
    (hx : s.exited = none) (hw : s.workers = []) :
    (runTrace s [Req.stop (some e)]).1.exited = some (shutdownCode s) ∧
    ((∀ t ∈ shutdownFilter s, t.outcome = none) → shutdownCode s = 0) := by
  refine ⟨stopRun_exited s (some e) hm hl hx hw, fun h => ?_⟩
  simp [shutdownCode, taskErr_of_all_ok _ h]

/-- C1 witness: the amended theorem evaluated on a concrete standalone
master with one succeeding task and a concrete error. -/
theorem c1_witness :
    ({ initSt with isMaster := true, shutdownTasks := [⟨7, true, none⟩] } : St).isMaster = true ∧
    (runTrace { initSt with isMaster := true, shutdownTasks := [⟨7, true, none⟩] } [Req.stop (some ⟨"oops", "st"⟩)]).1.exited = some 0 := by
  have h := c1_amended { initSt with isMaster := true, shutdownTasks := [⟨7, true, none⟩] } ⟨"oops", "st"⟩ rfl rfl rfl rfl
  have h2 := h.2 (by decide)
  refine ⟨rfl, ?_⟩
  rw [h.1, h2]

/-- C2 counterexample: three registered tasks where the second signals
failure; async.eachSeries stops at the failing task, so only tasks 1
and 2 run and task 3 is skipped while the process exits with code 1.
This refutes the claim that every remaining task in the list still runs
to completion after a failure. -/
theorem c2_counterexample :
    (runTrace { initSt with isMaster := true, shutdownTasks := [⟨1, true, none⟩, ⟨2, true, some "fail"⟩, ⟨3, true, none⟩] } [Req.stop none]).2.tasksRun = [1, 2] ∧
    (runTrace { initSt with isMaster := true, shutdownTasks := [⟨1, true, none⟩, ⟨2, true, some "fail"⟩, ⟨3, true, none⟩] } [Req.stop none]).1.exited = some 1 := by
  exact ⟨by decide, by decide⟩

/-- C2 amended: the filtered shutdown tasks execute strictly
sequentially in registration order, but a task failure short-circuits
the iteration: the tasks that run are exactly the prefix of the
filtered list up to and including the first failing task (execUpToErr),
and the process then exits with code 1 (shutdownCode). -/
theorem c2_amended (s : St) (e : Option JsError)
    (hm : s.isMaster = true) (hl : s.shutdownLock = false)
    (hx : s.exited = none) (hw : s.workers = []) :
    (runTrace s [Req.stop e]).2.tasksRun = execUpToErr (shutdownFilter s) ∧
    (runTrace s [Req.stop e]).1.exited = some (shutdownCode s) := by
  exact ⟨stopRun_tasksRun s e hm hl hx hw, stopRun_exited s e hm hl hx hw⟩

/-- C2 witness: the amended theorem evaluated on a concrete master with
a failing middle task. -/
theorem c2_witness :
    (runTrace { initSt with isMaster := true, shutdownTasks := [⟨4, true, none⟩, ⟨5, true, some "x"⟩, ⟨6, true, none⟩] } [Req.stop none]).2.tasksRun = execUpToErr (shutdownFilter { initSt with isMaster := true, shutdownTasks := [⟨4, true, none⟩, ⟨5, true, some "x"⟩, ⟨6, true, none⟩] }) := by
  exact (c2_amended { initSt with isMaster := true, shutdownTasks := [⟨4, true, none⟩, ⟨5, true, some "x"⟩, ⟨6, true, none⟩] } none rfl rfl rfl rfl).1

/-- C3 counterexample: a master started with exactly one worker
(numOfWorkers = 1) runs no shutdown task registered with runOnMaster =
false — ee.isMaster() is already true there, so the runOnMaster filter
applies.  This refutes the claim that every registered task executes on
a master that began with exactly one worker. -/
theorem c3_counterexample :
    (runTrace { initSt with isMaster := true, numOfWorkers := 1, shutdownTasks := [⟨1, false, none⟩] } [Req.stop none]).2.tasksRun = [] ∧
    (runTrace { initSt with isMaster := true, numOfWorkers := 1, shutdownTasks := [⟨1, false, none⟩] } [Req.stop none]).1.exited = some 0 := by
  exact ⟨by decide, by decide⟩

/-- C3 amended: at final shutdown exactly the runOnMaster tasks execute
whenever the process has the master flag and a nonzero current
numOfWorkers — including a master that began with exactly one worker —
and every registered task executes otherwise (a master with
numOfWorkers zero, or a worker running its local shutdown on an EXIT
command). -/
theorem c3_amended (s : St) (e : Option JsError)
    (hm : s.isMaster = true) (hl : s.shutdownLock = false)
    (hx : s.exited = none) (hw : s.workers = []) :
    (s.numOfWorkers ≠ 0 →
      (runTrace s [Req.stop e]).2.tasksRun =
        execUpToErr (s.shutdownTasks.filter (fun t => t.runOnMaster))) ∧
    (s.numOfWorkers = 0 →
      (runTrace s [Req.stop e]).2.tasksRun = execUpToErr s.shutdownTasks) ∧
    (∀ s2 : St, s2.isMaster = false → ∀ (err : Option JsError) (eff : Effects),
      (workerOnMessage s2 (.envelope (some .EXIT) err none none [] none) eff).2.tasksRun =
        eff.tasksRun ++ execUpToErr s2.shutdownTasks) := by
  refine ⟨?_, ?_, ?_⟩
  · intro hn
    rw [stopRun_tasksRun s e hm hl hx hw]
    have hf : shutdownFilter s = s.shutdownTasks.filter (fun t => t.runOnMaster) := by
      simp [shutdownFilter, eeIsMaster, hm, hn]
    rw [hf]
  · intro hn
    rw [stopRun_tasksRun s e hm hl hx hw]
    have hf : shutdownFilter s = s.shutdownTasks := by
      simp [shutdownFilter, eeIsMaster, hn]
    rw [hf]
  · intro s2 hm2 err eff
    simp [workerOnMessage, shutdownRun_tasksRun, shutdownFilter, eeIsMaster, hm2, Effects.log]

/-- C3 witness: the amended theorem evaluated on a concrete
single-worker master holding one runOnMaster and one non-runOnMaster
task, together with a concrete worker-side run where both tasks run. -/
theorem c3_witness :
    (runTrace { initSt with isMaster := true, numOfWorkers := 1, shutdownTasks := [⟨8, false, none⟩, ⟨9, true, none⟩] } [Req.stop none]).2.tasksRun = execUpToErr (List.filter (fun t => t.runOnMaster) [⟨8, false, none⟩, ⟨9, true, none⟩]) ∧
    (workerOnMessage { initSt with isMaster := false, shutdownTasks := [⟨8, false, none⟩, ⟨9, true, none⟩] } (.envelope (some .EXIT) none none none [] none) Effects.empty).2.tasksRun = [8, 9] := by
  constructor
  · exact (c3_amended { initSt with isMaster := true, numOfWorkers := 1, shutdownTasks := [⟨8, false, none⟩, ⟨9, true, none⟩] } none rfl rfl rfl rfl).1 (by decide)
  · rw [(c3_amended { initSt with isMaster := true, numOfWorkers := 1, shutdownTasks := [⟨8, false, none⟩, ⟨9, true, none⟩] } none rfl rfl rfl rfl).2.2 { initSt with isMaster := false, shutdownTasks := [⟨8, false, none⟩, ⟨9, true, none⟩] } rfl none Effects.empty]
    decide

theorem resumeReload_lock (s : St) (eff : Effects) :
    (resumeReload s eff).1.shutdownLock = s.shutdownLock := by
  unfold resumeReload
  split <;> rfl

theorem resumeReload_num (s : St) (eff : Effects) :
    (resumeReload s eff).1.numOfWorkers = s.numOfWorkers := by
  unfold resumeReload
  split <;> rfl

theorem resumeDrain_lock (s : St) (eff : Effects) :
    (resumeDrain s eff).1.shutdownLock = s.shutdownLock := by
  unfold resumeDrain
  split <;> rfl

theorem resumeDrain_num (s : St) (eff : Effects) :
    (resumeDrain s eff).1.numOfWorkers = s.numOfWorkers := by
  unfold resumeDrain
  split <;> rfl

theorem createWorkerF_lock (s : St) (eff : Effects) :
    (createWorkerF s eff).1.shutdownLock = s.shutdownLock := by
  rw [createWorkerF_fst]

theorem createWorkerF_num (s : St) (eff : Effects) :
    (createWorkerF s eff).1.numOfWorkers = s.numOfWorkers := by
  rw [createWorkerF_fst]

theorem handleAutoSpawn_lock (s : St) (wd : Option WorkerRec) (eff : Effects) :
    (handleAutoSpawn s wd eff).1.shutdownLock = s.shutdownLock := by
  unfold handleAutoSpawn
  split
  · split
    · rfl
    · split
      · rfl
      · simp [createWorkerF_lock]
  · rfl

theorem handleAutoSpawn_num_le (s : St) (wd : Option WorkerRec) (eff : Effects) :
    (handleAutoSpawn s wd eff).1.numOfWorkers ≤ s.numOfWorkers := by
  unfold handleAutoSpawn
  split
  · split
    · exact le_refl _
    · split
      · exact sub_le_self _ (by norm_num)
      · simp [createWorkerF_num]
  · exact le_refl _

theorem handleReloading_lock (s : St) (eff : Effects) :
    (handleReloading s eff).1.shutdownLock = s.shutdownLock := by
  unfold handleReloading
  dsimp only
  split <;> simp [resumeReload_lock, createWorkerF_lock]

theorem handleReloading_num (s : St) (eff : Effects) :
    (handleReloading s eff).1.numOfWorkers = s.numOfWorkers := by
  unfold handleReloading
  dsimp only
  split <;> simp [resumeReload_num, createWorkerF_num]

theorem handleWorkerExit_lock (s : St) (id : Nat) (code : Int) (suicide : Bool)
    (eff : Effects) :
    (handleWorkerExit s id code suicide eff).1.shutdownLock = s.shutdownLock := by
  unfold handleWorkerExit
  dsimp only
  split
  · rw [handleReloading_lock]
  · split <;> split <;>
      first
        | (split <;>
            simp [shutdownRun_fst, handleAutoSpawn_lock, resumeDrain_lock, syncWorkerMapF_fst])
        | simp [shutdownRun_fst, handleAutoSpawn_lock, resumeDrain_lock, syncWorkerMapF_fst]

theorem handleWorkerExit_num_le (s : St) (id : Nat) (code : Int) (suicide : Bool)
    (eff : Effects) :
    (handleWorkerExit s id code suicide eff).1.numOfWorkers ≤ s.numOfWorkers := by
  unfold handleWorkerExit
  dsimp only
  split
  · rw [handleReloading_num]
  · split <;> split <;>
      first
        | (split <;>
            simp [shutdownRun_fst, handleAutoSpawn_num_le, resumeDrain_num, syncWorkerMapF_fst])
        | simp [shutdownRun_fst, handleAutoSpawn_num_le, resumeDrain_num, syncWorkerMapF_fst]

theorem reloadFun_lock (s : St) (eff : Effects) :
    (reloadFun s eff).1.shutdownLock = s.shutdownLock := by
  unfold reloadFun
  dsimp only
  split <;> first
    | rfl
    | (split <;> first | rfl | (split <;> rfl))

theorem reloadFun_num (s : St) (eff : Effects) :
    (reloadFun s eff).1.numOfWorkers = s.numOfWorkers := by
  unfold reloadFun
  dsimp only
  split <;> first
    | rfl
    | (split <;> first | rfl | (split <;> rfl))

theorem exitFun_lock_mono (s : St) (e : Option JsError) (sig : Option SigVal)
    (eff : Effects) (h : s.shutdownLock = true) :
    (exitFun s e sig eff).1.shutdownLock = true := by
  by_cases hm : s.isMaster = true
  · rw [exitFun_locked s e sig eff hm h]
    exact h
  · rw [exitFun_worker s e sig eff (by simpa using hm)]
    exact h

theorem exitFun_num (s : St) (e : Option JsError) (sig : Option SigVal)
    (eff : Effects) :
    (exitFun s e sig eff).1.numOfWorkers = s.numOfWorkers := by
  by_cases hm : s.isMaster = true
  · by_cases hl : s.shutdownLock = true
    · rw [exitFun_locked s e sig eff hm hl]
    · have hl2 : s.shutdownLock = false := by simpa using hl
      by_cases hn : s.numOfWorkers = 0
      · rw [exitFun_unlocked_zero s e sig eff hm hl2 hn, shutdownRun_fst]
      · cases hw : s.workers with
        | nil =>
          rw [exitFun_unlocked_drained s e sig eff hm hl2 hn hw, shutdownRun_fst]
        | cons w rest =>
          rw [exitFun_unlocked_drain s e sig eff w rest hm hl2 hn hw]
  · rw [exitFun_worker s e sig eff (by simpa using hm)]

theorem masterOnMessage_lock_mono (s : St) (m : RawMsg) (eff : Effects)
    (h : s.shutdownLock = true) :
    (masterOnMessage s m eff).1.shutdownLock = true := by
  unfold masterOnMessage
  split
  · exact h
  · split
    · exact h
    · exact exitFun_lock_mono _ _ _ _ h
    · exact h

theorem masterOnMessage_num (s : St) (m : RawMsg) (eff : Effects) :
    (masterOnMessage s m eff).1.numOfWorkers = s.numOfWorkers := by
  unfold masterOnMessage
  split
  · rfl
  · split
    · rfl
    · exact exitFun_num _ _ _ _
    · rfl

theorem dispatch_lock_mono (s : St) (r : Req) (h : s.shutdownLock = true) :
    (dispatch s r).1.shutdownLock = true := by
  unfold dispatch
  split
  · exact h
  · match r with
    | .stop err => exact exitFun_lock_mono _ _ _ _ h
    | .sigReq name =>
      dsimp only
      split
      · rw [reloadFun_lock]
        exact h
      · split
        · exact exitFun_lock_mono _ _ _ _ h
        · exact h
    | .workerExit id code suicide =>
      dsimp only
      split
      · rw [handleWorkerExit_lock]
        exact h
      · exact h
    | .fromWorker m => exact masterOnMessage_lock_mono _ _ _ h
    | .tick dt => exact h

theorem dispatch_num_le (s : St) (r : Req) :
    (dispatch s r).1.numOfWorkers ≤ s.numOfWorkers := by
  unfold dispatch
  split
  · exact le_refl _
  · match r with
    | .stop err => exact le_of_eq (exitFun_num _ _ _ _)
    | .sigReq name =>
      dsimp only
      split
      · exact le_of_eq (reloadFun_num _ _)
      · split
        · exact le_of_eq (exitFun_num _ _ _ _)
        · exact le_refl _
    | .workerExit id code suicide =>
      dsimp only
      split
      · exact handleWorkerExit_num_le _ _ _ _ _
      · exact le_refl _
    | .fromWorker m => exact le_of_eq (masterOnMessage_num _ _ _)
    | .tick dt => exact le_refl _

theorem runTrace_cons (s : St) (r : Req) (rs : List Req) :
    runTrace s (r :: rs) =
      ((runTrace (dispatch s r).1 rs).1,
        (dispatch s r).2 ++ (runTrace (dispatch s r).1 rs).2) := by
  simp [runTrace]

theorem dispatch_exited (s : St) (r : Req) (h : s.exited.isSome = true) :
    dispatch s r = (s, Effects.empty) := by
  unfold dispatch
  simp [h]

theorem runTrace_exited (s : St) (rs : List Req) (h : s.exited.isSome = true) :
    runTrace s rs = (s, Effects.empty) := by
  induction rs with
  | nil => rfl
  | cons r rest ih =>
    rw [runTrace_cons, dispatch_exited s r h]
    simp [ih, empty_append]

theorem exitFun_sets_lock (s : St) (e : Option JsError) (sig : Option SigVal)
    (eff : Effects) (hm : s.isMaster = true) (hl : s.shutdownLock = false) :
    (exitFun s e sig eff).1.shutdownLock = true := by
  by_cases hn : s.numOfWorkers = 0
  · rw [exitFun_unlocked_zero s e sig eff hm hl hn, shutdownRun_fst]
  · cases hw : s.workers with
    | nil => rw [exitFun_unlocked_drained s e sig eff hm hl hn hw, shutdownRun_fst]
    | cons w rest => rw [exitFun_unlocked_drain s e sig eff w rest hm hl hn hw]

theorem exitReq_dispatch_cases (s : St) (r : Req) (hx : s.exited = none)
    (hr : r.isExitReq = true) :
    ∃ e sig, dispatch s r = exitFun s e sig Effects.empty := by
  cases r with
  | stop err =>
    exact ⟨err, _, dispatch_stop s err hx⟩
  | sigReq name =>
    have hx2 : s.exited.isSome = false := by simp [hx]
    simp only [Req.isExitReq, Bool.or_eq_true, beq_iff_eq] at hr
    refine ⟨none, some (.str name), ?_⟩
    unfold dispatch
    rcases hr with (rfl | rfl) | rfl <;> simp [hx2]
  | workerExit id code suicide => simp [Req.isExitReq] at hr
  | fromWorker m => simp [Req.isExitReq] at hr
  | tick dt => simp [Req.isExitReq] at hr

theorem countExitEv_append (a b : List Ev) :
    countExitEv (a ++ b) = countExitEv a + countExitEv b := by
  simp [countExitEv, List.filter_append]

theorem execUpToErr_sublist (l : List STask) :
    (execUpToErr l).Sublist (l.map STask.tid) := by
  induction l with
  | nil => simp [execUpToErr]
  | cons t r ih =>
    simp only [execUpToErr, List.map_cons]
    cases t.outcome with
    | some e => exact (List.nil_sublist _).cons₂ _
    | none => exact ih.cons₂ _

theorem count_execUpToErr_le_one (l : List STask)
    (h : (l.map STask.tid).Nodup) (i : Nat) :
    (execUpToErr l).count i ≤ 1 := by
  have hnd : (execUpToErr l).Nodup := h.sublist (execUpToErr_sublist l)
  exact List.nodup_iff_count_le_one.mp hnd i

theorem shutdownFilter_tid_nodup (s : St)
    (h : (s.shutdownTasks.map STask.tid).Nodup) :
    ((shutdownFilter s).map STask.tid).Nodup := by
  have hsub : (shutdownFilter s).Sublist s.shutdownTasks := List.filter_sublist _
  exact h.sublist (hsub.map STask.tid)

theorem shutdownRun_from_logonly (s : St) (b : Bool) (sig : Option SigVal)
    (eff : Effects) (hev : eff.events = []) (htk : eff.tasksRun = []) :
    (shutdownRun s b sig eff).1.exited.isSome = true ∧
    countExitEv (shutdownRun s b sig eff).2.events = 1 ∧
    (shutdownRun s b sig eff).2.tasksRun = execUpToErr (shutdownFilter s) := by
  refine ⟨?_, ?_, ?_⟩
  · rw [shutdownRun_fst]
    simp
  · rw [shutdownRun_events, hev]
    simp [countExitEv, Ev.isExitEv]
  · rw [shutdownRun_tasksRun, htk]
    simp

theorem c4_aux (rs : List Req) : ∀ s : St, s.isMaster = true →
    (s.shutdownTasks.map STask.tid).Nodup →
    (∀ r ∈ rs, r.isExitReq = true) →
    s.exited = none →
    (countExitEv (runTrace s rs).2.events ≤ 1 ∧
     (∀ i, (runTrace s rs).2.tasksRun.count i ≤ 1) ∧
     ((runTrace s rs).1.exited = none →
        countExitEv (runTrace s rs).2.events = 0 ∧ (runTrace s rs).2.tasksRun = [])) := by
  induction rs with
  | nil =>
    intro s hm hnd hrs hx
    refine ⟨?_, ?_, fun _ => ⟨?_, ?_⟩⟩ <;> simp [runTrace, countExitEv, Effects.empty]
  | cons r rest ih =>
    intro s hm hnd hrs hx
    have hrest : ∀ q ∈ rest, q.isExitReq = true :=
      fun q hq => hrs q (List.mem_cons_of_mem _ hq)
    obtain ⟨e, sig, hd⟩ := exitReq_dispatch_cases s r hx (hrs r (List.mem_cons_self _ _))
    rw [runTrace_cons, hd]
    by_cases hl : s.shutdownLock = true
    · rw [exitFun_locked s e sig Effects.empty hm hl]
      have IH := ih s hm hnd hrest hx
      have hev : (if e.isSome then Effects.empty.log .fatal "exit instruction by error"
          else Effects.empty).events = [] := by
        cases e <;> simp [Effects.log, Effects.empty]
      have htk : (if e.isSome then Effects.empty.log .fatal "exit instruction by error"
          else Effects.empty).tasksRun = [] := by
        cases e <;> simp [Effects.log, Effects.empty]
      refine ⟨?_, ?_, ?_⟩
      · rw [events_append, hev]
        simpa using IH.1
      · intro i
        rw [tasksRun_append, htk]
        simpa using IH.2.1 i
      · intro hex
        have h3 := IH.2.2 hex
        rw [events_append, hev, tasksRun_append, htk]
        simpa using h3
    · have hl2 : s.shutdownLock = false := by simpa using hl
      by_cases hn : s.numOfWorkers = 0
      · rw [exitFun_unlocked_zero s e sig Effects.empty hm hl2 hn]
        obtain ⟨hxs, hc1, ht1⟩ :=
          shutdownRun_from_logonly { s with shutdownLock := true } e.isSome sig
            (Effects.empty.log (if e.isSome then .fatal else .info)
              (if e.isSome then "exiting with an error" else "exiting"))
            (by simp [Effects.log, Effects.empty]) (by simp [Effects.log, Effects.empty])
        rw [runTrace_exited _ rest hxs]
        refine ⟨?_, ?_, ?_⟩
        · rw [events_append, show (Effects.empty : Effects).events = [] from rfl,
            List.append_nil, hc1]
        · intro i
          rw [tasksRun_append, show (Effects.empty : Effects).tasksRun = [] from rfl,
            List.append_nil, ht1]
          exact count_execUpToErr_le_one _ (shutdownFilter_tid_nodup _ hnd) i
        · intro hex
          exfalso
          rw [shutdownRun_fst] at hex
          simp at hex
      · cases hw : s.workers with
        | nil =>
          rw [exitFun_unlocked_drained s e sig Effects.empty hm hl2 hn hw]
          obtain ⟨hxs, hc1, ht1⟩ :=
            shutdownRun_from_logonly { s with shutdownLock := true, isShutdown := true }
              (sigTruthy sig) none
              ((Effects.empty.log (if e.isSome then .fatal else .info)
                  (if e.isSome then "exiting with an error" else "exiting")).log
                (if e.isSome then .fatal else .info) "master is exiting")
              (by simp [Effects.log, Effects.empty]) (by simp [Effects.log, Effects.empty])
          rw [runTrace_exited _ rest hxs]
          refine ⟨?_, ?_, ?_⟩
          · rw [events_append, show (Effects.empty : Effects).events = [] from rfl,
              List.append_nil, hc1]
          · intro i
            rw [tasksRun_append, show (Effects.empty : Effects).tasksRun = [] from rfl,
              List.append_nil, ht1]
            exact count_execUpToErr_le_one _ (shutdownFilter_tid_nodup _ hnd) i
          · intro hex
            exfalso
            rw [shutdownRun_fst] at hex
            simp at hex
        | cons w ws =>
          rw [exitFun_unlocked_drain s e sig Effects.empty w ws hm hl2 hn hw]
          have IH := ih { s with shutdownLock := true, isShutdown := true, drainQueue := ws, drainErr := e } hm hnd hrest hx
          have hev : (((Effects.empty.log (if e.isSome then LogLevel.fatal else .info)
              (if e.isSome then "exiting with an error" else "exiting")).log
                (if e.isSome then LogLevel.fatal else .info)
                "instruct worker process to exit").send
              ⟨Cmd.EXIT, some w, e, none⟩).events = [] := by
            simp [Effects.log, Effects.send, Effects.empty]
          have htk : (((Effects.empty.log (if e.isSome then LogLevel.fatal else .info)
              (if e.isSome then "exiting with an error" else "exiting")).log
                (if e.isSome then LogLevel.fatal else .info)
                "instruct worker process to exit").send
              ⟨Cmd.EXIT, some w, e, none⟩).tasksRun = [] := by
            simp [Effects.log, Effects.send, Effects.empty]
          refine ⟨?_, ?_, ?_⟩
          · rw [events_append, hev]
            simpa using IH.1
          · intro i
            rw [tasksRun_append, htk]
            simpa using IH.2.1 i
          · intro hex
            have h3 := IH.2.2 hex
            rw [events_append, hev, tasksRun_append, htk]
            simpa using h3

/-- C4: on a master, the first exit request (dispatch of stop on an
unlocked, not-yet-exited master) sets shutdownLock; no request of any
kind ever clears shutdownLock afterwards; an exit or stop request
arriving while the lock is set returns the state unchanged with, at
most, a fatal log line when it carries an error (no events, no sends,
no task executions); and along any trace of exit or stop requests the
shutdown tasks execute at most once (each registered tid runs at most
one time) and at most one exit event is emitted — in particular for two
overlapping stop invocations. -/
theorem c4_shutdown_lock_single_shot (s : St) (e : Option JsError) (rs : List Req)
    (hm : s.isMaster = true) (hx : s.exited = none)
    (hnd : (s.shutdownTasks.map STask.tid).Nodup)
    (hrs : ∀ r ∈ rs, r.isExitReq = true) :
    (s.shutdownLock = false → (dispatch s (.stop e)).1.shutdownLock = true) ∧
    (∀ (r : Req) (s2 : St), s2.shutdownLock = true →
      (dispatch s2 r).1.shutdownLock = true) ∧
    (s.shutdownLock = true →
      dispatch s (.stop e) =
        (s, if e.isSome then Effects.empty.log .fatal "exit instruction by error"
            else Effects.empty)) ∧
    countExitEv (runTrace s rs).2.events ≤ 1 ∧
    (∀ i, (runTrace s rs).2.tasksRun.count i ≤ 1) := by
  refine ⟨?_, ?_, ?_, ?_, ?_⟩
  · intro hl
    rw [dispatch_stop s e hx]
    exact exitFun_sets_lock s e _ _ hm hl
  · intro r s2 h
    exact dispatch_lock_mono s2 r h
  · intro hl
    rw [dispatch_stop s e hx, exitFun_locked s e _ Effects.empty hm hl]
  · exact (c4_aux rs s hm hnd hrs hx).1
  · exact (c4_aux rs s hm hnd hrs hx).2.1

/-- C4 witness: the theorem applied to a concrete master with two
workers and one task, under the two-overlapping-stops trace. -/
theorem c4_witness :
    (dispatch { initSt with isMaster := true, numOfWorkers := 2, workers := [1, 2], shutdownTasks := [⟨1, true, none⟩] } (.stop none)).1.shutdownLock = true ∧
    countExitEv (runTrace { initSt with isMaster := true, numOfWorkers := 2, workers := [1, 2], shutdownTasks := [⟨1, true, none⟩] } [Req.stop none, Req.stop (some ⟨"x", "y"⟩)]).2.events ≤ 1 := by
  have h := c4_shutdown_lock_single_shot { initSt with isMaster := true, numOfWorkers := 2, workers := [1, 2], shutdownTasks := [⟨1, true, none⟩] } none [Req.stop none, Req.stop (some ⟨"x", "y"⟩)] rfl rfl (by decide) (by decide)
  exact ⟨h.1 rfl, h.2.2.2.1⟩

theorem resumeDrain_events (s : St) (eff : Effects) :
    (resumeDrain s eff).2.events = eff.events := by
  unfold resumeDrain
  split <;> simp [Effects.log, Effects.send]

theorem resumeDrain_nextId (s : St) (eff : Effects) :
    (resumeDrain s eff).1.nextId = s.nextId := by
  unfold resumeDrain
  split <;> rfl

theorem resumeDrain_workers (s : St) (eff : Effects) :
    (resumeDrain s eff).1.workers = s.workers := by
  unfold resumeDrain
  split <;> rfl

/-- C5: on a master with autoSpawn on, no reload in flight and no
shutdown in progress, the observation of an unintentional worker exit
behaves as the crash-loop policy dictates: when the worker's uptime is
below MIN_LIFE, numOfWorkers drops by exactly one, no worker is forked
(nextId unchanged) and no auto.spawn event is emitted; when the uptime
is at least MIN_LIFE, numOfWorkers is unchanged, exactly one
replacement is forked (nextId advances by one and the registry gains
exactly the new id) and exactly one auto.spawn event carrying the new
pid and id is emitted.  The decrement is permanent: no request ever
increases numOfWorkers. -/
theorem c5_auto_spawn (s : St) (id : Nat) (code : Int) (wd : WorkerRec)
    (hm : s.isMaster = true) (hx : s.exited = none)
    (ha : s.autoSpawn = true) (hr : s.isReloading = false)
    (hs : s.isShutdown = false)
    (hin : s.workers.contains id = true)
    (hwd : s.workerMap.lookup id = some wd) :
    (s.clock - wd.started < MIN_LIFE →
      (dispatch s (.workerExit id code false)).1.numOfWorkers = s.numOfWorkers - 1 ∧
      (dispatch s (.workerExit id code false)).1.nextId = s.nextId ∧
      (dispatch s (.workerExit id code false)).2.events.filter Ev.isAutoSpawnEv = []) ∧
    (MIN_LIFE ≤ s.clock - wd.started →
      (dispatch s (.workerExit id code false)).1.numOfWorkers = s.numOfWorkers ∧
      (dispatch s (.workerExit id code false)).1.nextId = s.nextId + 1 ∧
      (dispatch s (.workerExit id code false)).1.workers = s.workers.erase id ++ [s.nextId] ∧
      (dispatch s (.workerExit id code false)).2.events.filter Ev.isAutoSpawnEv =
        [.autoSpawnEv (mkPid s.nextId) s.nextId]) ∧
    (∀ (s2 : St) (r : Req), (dispatch s2 r).1.numOfWorkers ≤ s2.numOfWorkers) := by
  have hdisp : dispatch s (.workerExit id code false) =
      handleWorkerExit s id code false Effects.empty := by
    unfold dispatch
    rw [if_neg (by simp [hx])]
    dsimp only
    rw [if_pos hin]
  refine ⟨fun hlt => ?_, fun hge => ?_, fun s2 r => dispatch_num_le s2 r⟩
  · rw [hdisp]
    unfold handleWorkerExit handleAutoSpawn
    dsimp only
    simp only [hr, hwd, ha, hs, Bool.not_false, Bool.and_self, if_true, if_false,
      Bool.false_eq_true, Bool.true_and, Bool.not_true]
    rw [if_pos hlt]
    refine ⟨?_, ?_, ?_⟩
    · split
      · split <;> simp [shutdownRun_fst]
      · simp [resumeDrain_num, syncWorkerMapF_fst]
    · split
      · split <;> simp [shutdownRun_fst]
      · simp [resumeDrain_nextId, syncWorkerMapF_fst]
    · split
      · split
        · rw [shutdownRun_events]
          simp [Effects.log, Effects.empty, Ev.isAutoSpawnEv]
        · simp [Effects.log, Effects.empty]
      · rw [resumeDrain_events, syncWorkerMapF_events]
        simp [Effects.log, Effects.empty]
  · rw [hdisp]
    unfold handleWorkerExit handleAutoSpawn
    dsimp only
    simp only [hr, hwd, ha, hs, Bool.not_false, Bool.and_self, if_true, if_false,
      Bool.false_eq_true, Bool.true_and, Bool.not_true]
    rw [if_neg (not_lt.mpr hge)]
    have hne : (s.workers.erase id ++ [s.nextId]).isEmpty = false := by
      simp [List.isEmpty_iff]
    refine ⟨?_, ?_, ?_, ?_⟩ <;>
      · simp only [createWorkerF_fst, createWorkerF_id, createWorkerF_pid]
        rw [if_neg (by simp [createWorkerF_fst, hne])]
        simp [resumeDrain_num, resumeDrain_nextId, resumeDrain_workers, resumeDrain_events,
          syncWorkerMapF_fst, syncWorkerMapF_events, createWorkerF_fst, createWorkerF_events,
          createWorkerF_id, createWorkerF_pid, Effects.event, Effects.log, Effects.empty,
          Ev.isAutoSpawnEv]

/-- C5 witness: the theorem applied to a concrete two-worker master,
once at a clock where the dying worker lived 500 ms (crash loop) and
once at a clock where it lived 20000 ms (respawn). -/
theorem c5_witness :
    (dispatch { initSt with isMaster := true, numOfWorkers := 2, autoSpawn := true, workers := [1, 2], workerMap := [(1, ⟨0, 10001⟩), (2, ⟨0, 10002⟩)], nextId := 3, clock := 500 } (.workerExit 1 7 false)).1.numOfWorkers = 1 ∧
    (dispatch { initSt with isMaster := true, numOfWorkers := 2, autoSpawn := true, workers := [1, 2], workerMap := [(1, ⟨0, 10001⟩), (2, ⟨0, 10002⟩)], nextId := 3, clock := 20000 } (.workerExit 1 7 false)).2.events.filter Ev.isAutoSpawnEv = [.autoSpawnEv (mkPid 3) 3] := by
  constructor
  · have h := (c5_auto_spawn { initSt with isMaster := true, numOfWorkers := 2, autoSpawn := true, workers := [1, 2], workerMap := [(1, ⟨0, 10001⟩), (2, ⟨0, 10002⟩)], nextId := 3, clock := 500 } 1 7 ⟨0, 10001⟩ rfl rfl rfl rfl rfl (by decide) (by decide)).1 (by decide)
    rw [h.1]
    decide
  · exact ((c5_auto_spawn { initSt with isMaster := true, numOfWorkers := 2, autoSpawn := true, workers := [1, 2], workerMap := [(1, ⟨0, 10001⟩), (2, ⟨0, 10002⟩)], nextId := 3, clock := 20000 } 1 7 ⟨0, 10001⟩ rfl rfl rfl rfl rfl (by decide) (by decide)).2.1 (by decide)).2.2.2

theorem resumeReload_events (s : St) (eff : Effects) :
    (resumeReload s eff).2.events = eff.events := by
  unfold resumeReload
  split <;> simp [Effects.send]

theorem resumeReload_exited (s : St) (eff : Effects) :
    (resumeReload s eff).1.exited = s.exited := by
  unfold resumeReload
  split <;> rfl

theorem resumeReload_isReloading (s : St) (eff : Effects) :
    (resumeReload s eff).1.isReloading = s.isReloading := by
  unfold resumeReload
  split <;> rfl

theorem resumeReload_reloaded (s : St) (eff : Effects) :
    (resumeReload s eff).1.reloaded = s.reloaded := by
  unfold resumeReload
  split <;> rfl

theorem resumeReload_workers (s : St) (eff : Effects) :
    (resumeReload s eff).1.workers = s.workers := by
  unfold resumeReload
  split <;> rfl

theorem resumeReload_nextId (s : St) (eff : Effects) :
    (resumeReload s eff).1.nextId = s.nextId := by
  unfold resumeReload
  split <;> rfl

theorem handleReloading_spec (s : St) (eff : Effects) :
    (handleReloading s eff).2.events =
      eff.events ++
        [.reloadEv "reloading" (some (mkPid s.nextId)) (some s.nextId),
         .reloadReloading none s.nextId] ++
        (if s.reloaded + 1 == s.numOfWorkers then
          [.reloadEv "complete" none none, .reloadComplete] else []) ∧
    (handleReloading s eff).1.exited = s.exited ∧
    (handleReloading s eff).1.numOfWorkers = s.numOfWorkers ∧
    (handleReloading s eff).1.nextId = s.nextId + 1 ∧
    (handleReloading s eff).1.workers = s.workers ++ [s.nextId] ∧
    (handleReloading s eff).1.reloaded =
      (if s.reloaded + 1 == s.numOfWorkers then 0 else s.reloaded + 1) ∧
    (handleReloading s eff).1.isReloading =
      (if s.reloaded + 1 == s.numOfWorkers then false else s.isReloading) := by
  unfold handleReloading
  dsimp only
  simp only [createWorkerF_fst, createWorkerF_id, createWorkerF_pid, resumeReload_reloaded,
    resumeReload_num]
  split <;>
    simp [resumeReload_events, resumeReload_exited, resumeReload_isReloading,
      resumeReload_reloaded, resumeReload_workers, resumeReload_nextId, resumeReload_num,
      createWorkerF_fst, createWorkerF_events, Effects.event, Effects.log]

theorem reload_step (s : St) (w : Nat) (tl : List Nat) (code : Int) (sc : Bool)
    (hx : s.exited = none) (hrl : s.isReloading = true) (hw : s.workers = w :: tl) :
    dispatch s (.workerExit w code sc) =
      handleReloading
        { s with workers := tl,
                 workerMap := s.workerMap.filter (fun p => p.1 != w) }
        (Effects.empty.log .info "cluster process is exiting") := by
  unfold dispatch
  rw [if_neg (by simp [hx])]
  dsimp only
  rw [if_pos (by simp [hw])]
  unfold handleWorkerExit
  dsimp only
  rw [hw, List.erase_cons_head]
  rw [if_pos hrl]

theorem c6_aux (rem : List Nat) : ∀ (s : St) (news : List Nat),
    s.exited = none → s.isReloading = true →
    s.workers = rem ++ news →
    s.numOfWorkers = s.reloaded + rem.length →
    rem ≠ [] →
    ((runTrace s (rem.map (fun i => Req.workerExit i 0 false))).2.events =
       progressEvents s.nextId rem.length ++
         [.reloadEv "complete" none none, .reloadComplete] ∧
     (runTrace s (rem.map (fun i => Req.workerExit i 0 false))).1.isReloading = false ∧
     (runTrace s (rem.map (fun i => Req.workerExit i 0 false))).1.reloaded = 0) := by
  induction rem with
  | nil =>
    intro s news _ _ _ _ hne
    exact absurd rfl hne
  | cons w rem2 ih =>
    intro s news hx hrl hw hnum hne
    rw [List.map_cons, runTrace_cons, reload_step s w (rem2 ++ news) 0 false hx hrl hw]
    obtain ⟨hev, hxe, hnm, hni, hwk, hre, hir⟩ :=
      handleReloading_spec { s with workers := rem2 ++ news, workerMap := s.workerMap.filter (fun p => p.1 != w) } (Effects.empty.log .info "cluster process is exiting")
    dsimp only at hev hxe hnm hni hwk hre hir
    by_cases hc : rem2 = []
    · subst hc
      have hbeq : (s.reloaded + 1 == s.numOfWorkers) = true := by
        simp only [List.length_cons, List.length_nil] at hnum
        simp [hnum]
      simp only [hbeq, if_true] at hev hre hir
      simp only [List.map_nil, runTrace]
      refine ⟨?_, ?_, ?_⟩
      · rw [events_append, hev]
        simp [Effects.log, Effects.empty, progressEvents]
      · exact hir
      · exact hre
    · have hbeq : (s.reloaded + 1 == s.numOfWorkers) = false := by
        simp only [List.length_cons] at hnum
        rw [beq_eq_false_iff_ne]
        intro hcon
        rw [hnum] at hcon
        have : rem2.length ≠ 0 := fun h => hc (List.length_eq_zero.mp h)
        push_cast at hcon
        omega
      simp only [hbeq, Bool.false_eq_true, if_false, List.append_nil] at hev hre hir
      have IH := ih (handleReloading { s with workers := rem2 ++ news, workerMap := s.workerMap.filter (fun p => p.1 != w) } (Effects.empty.log .info "cluster process is exiting")).1 (news ++ [s.nextId]) (by rw [hxe]; exact hx) (by rw [hir]; exact hrl) (by rw [hwk]; simp) (by rw [hnm, hre]; simp only [List.length_cons] at hnum; rw [hnum]; push_cast; ring) hc
      refine ⟨?_, IH.2.1, IH.2.2⟩
      rw [events_append, hev, IH.1, hni]
      simp only [List.length_cons, progressEvents]
      simp [Effects.log, Effects.empty]

theorem reload_trigger (s : St) (w : Nat) (ws : List Nat)
    (hm : s.isMaster = true) (hx : s.exited = none)
    (hn : s.numOfWorkers ≠ 0) (hw : s.workers = w :: ws) :
    dispatch s (.sigReq "SIGHUP") =
      ({ s with isReloading := true, reloaded := 0, reloadQueue := ws },
       (Effects.empty.log .info "reloading").send ⟨Cmd.RELOAD, some w, none, none⟩) := by
  unfold dispatch
  rw [if_neg (by simp [hx])]
  dsimp only
  rw [if_pos (by simp)]
  unfold reloadFun
  rw [if_neg (by simp [hm])]
  dsimp only
  rw [if_pos (by simpa using hn)]
  simp only [hw]

theorem progressEvents_filter_progress (k n : Nat) :
    ((progressEvents k n).filter Ev.isReloadProgress).length = n := by
  induction n generalizing k with
  | zero => simp [progressEvents]
  | succ m ih => simp [progressEvents, Ev.isReloadProgress, ih]

theorem progressEvents_filter_complete (k n : Nat) :
    (progressEvents k n).filter Ev.isReloadCompleteEv = [] := by
  induction n generalizing k with
  | zero => simp [progressEvents]
  | succ m ih => simp [progressEvents, Ev.isReloadCompleteEv, ih]

/-- C6: a reload on a master whose registry holds the workers w :: ws
(with numOfWorkers equal to the registry size), driven by the hang-up
signal and the resulting exit of each snapshot worker in turn, emits
exactly one reload-progress event per replacement — each the reload
event in state reloading carrying the new worker's pid and id — and
then exactly one reload-complete event after all N of them, after which
isReloading is false and reloadedCount is reset to 0. -/
theorem c6_reload (s : St) (w : Nat) (ws : List Nat)
    (hm : s.isMaster = true) (hx : s.exited = none)
    (hw : s.workers = w :: ws)
    (hnum : s.numOfWorkers = (w :: ws).length) :
    (runTrace s (.sigReq "SIGHUP" :: (w :: ws).map (fun i => Req.workerExit i 0 false))).2.events =
      progressEvents s.nextId (w :: ws).length ++
        [.reloadEv "complete" none none, .reloadComplete] ∧
    ((runTrace s (.sigReq "SIGHUP" :: (w :: ws).map (fun i => Req.workerExit i 0 false))).2.events.filter
      Ev.isReloadProgress).length = (w :: ws).length ∧
    ((runTrace s (.sigReq "SIGHUP" :: (w :: ws).map (fun i => Req.workerExit i 0 false))).2.events.filter
      Ev.isReloadCompleteEv).length = 1 ∧
    (runTrace s (.sigReq "SIGHUP" :: (w :: ws).map (fun i => Req.workerExit i 0 false))).1.isReloading = false ∧
    (runTrace s (.sigReq "SIGHUP" :: (w :: ws).map (fun i => Req.workerExit i 0 false))).1.reloaded = 0 := by
  have hn : s.numOfWorkers ≠ 0 := by
    rw [hnum]
    simp only [List.length_cons]
    push_cast
    omega
  rw [runTrace_cons, reload_trigger s w ws hm hx hn hw]
  have haux := c6_aux (w :: ws)
    { s with isReloading := true, reloaded := 0, reloadQueue := ws } []
    hx rfl (by simpa using hw) (by rw [hnum]; simp) (by simp)
  obtain ⟨hev, hir, hre⟩ := haux
  dsimp only at hev hir hre
  refine ⟨?_, ?_, ?_, ?_, ?_⟩
  · rw [events_append, hev]
    simp [Effects.log, Effects.send, Effects.empty]
  · rw [events_append, hev]
    simp only [Effects.log, Effects.send, Effects.empty, List.filter_append]
    simp [progressEvents_filter_progress, Ev.isReloadProgress]
  · rw [events_append, hev]
    simp only [Effects.log, Effects.send, Effects.empty, List.filter_append]
    simp [progressEvents_filter_complete, Ev.isReloadCompleteEv]
  · exact hir
  · exact hre

/-- C6 witness: the theorem applied to the concrete two-worker master
of the P11 scenario. -/
theorem c6_witness :
    ((runTrace { initSt with isMaster := true, numOfWorkers := 2, workers := [1, 2], workerMap := [(1, ⟨0, 10001⟩), (2, ⟨0, 10002⟩)], nextId := 3 } (.sigReq "SIGHUP" :: ([1, 2].map (fun i => Req.workerExit i 0 false)))).2.events.filter Ev.isReloadProgress).length = 2 ∧
    ((runTrace { initSt with isMaster := true, numOfWorkers := 2, workers := [1, 2], workerMap := [(1, ⟨0, 10001⟩), (2, ⟨0, 10002⟩)], nextId := 3 } (.sigReq "SIGHUP" :: ([1, 2].map (fun i => Req.workerExit i 0 false)))).2.events.filter Ev.isReloadCompleteEv).length = 1 := by
  have h := c6_reload { initSt with isMaster := true, numOfWorkers := 2, workers := [1, 2], workerMap := [(1, ⟨0, 10001⟩), (2, ⟨0, 10002⟩)], nextId := 3 } 1 [2] rfl rfl rfl (by decide)
  exact ⟨h.2.1, h.2.2.1⟩

/-- C7: a reload trigger received by a process whose role is not
Master — ee.isMaster() is false, covering both a Worker (module master
flag off, where the handler returns before doing anything) and a
Standalone process (flag on, numOfWorkers zero, where the handler logs
and then skips the reload body) — is a no-op: the state is unchanged,
no RELOAD envelope (or any other envelope) is sent and no event is
emitted, both for the bare reload function and for the dispatched
hang-up signal; on a Worker even the effect log is untouched. -/
theorem c7_reload_non_master (s : St) (eff : Effects) (hrole : eeIsMaster s = false) :
    (reloadFun s eff).1 = s ∧
    (reloadFun s eff).2.events = eff.events ∧
    (reloadFun s eff).2.sends = eff.sends ∧
    (s.isMaster = false → reloadFun s eff = (s, eff)) ∧
    (s.exited = none →
      (dispatch s (.sigReq "SIGHUP")).1 = s ∧
      (dispatch s (.sigReq "SIGHUP")).2.events = [] ∧
      (dispatch s (.sigReq "SIGHUP")).2.sends = []) := by
  have key : ∀ eff2 : Effects,
      reloadFun s eff2 = (s, eff2) ∨
      reloadFun s eff2 = (s, eff2.log .info "reloading") := by
    intro eff2
    by_cases hm : s.isMaster = true
    · have hn : s.numOfWorkers = 0 := by
        simpa [eeIsMaster, hm] using hrole
      right
      unfold reloadFun
      rw [if_neg (by simp [hm])]
      dsimp only
      rw [if_neg (by simp [hn])]
    · left
      unfold reloadFun
      rw [if_pos (by simp [Bool.not_eq_true] at hm ⊢; exact hm)]
  have hd : s.exited = none →
      dispatch s (.sigReq "SIGHUP") = reloadFun s Effects.empty := by
    intro hx
    unfold dispatch
    rw [if_neg (by simp [hx])]
    dsimp only
    rw [if_pos (by simp)]
  refine ⟨?_, ?_, ?_, ?_, ?_⟩
  · rcases key eff with h | h <;> rw [h]
  · rcases key eff with h | h <;> rw [h] <;> simp [Effects.log]
  · rcases key eff with h | h <;> rw [h] <;> simp [Effects.log]
  · intro hm
    unfold reloadFun
    rw [if_pos (by simp [hm])]
  · intro hx
    rw [hd hx]
    rcases key Effects.empty with h | h <;> rw [h] <;>
      simp [Effects.log, Effects.empty]

/-- C7 witness: the theorem applied to a concrete worker process of a
four-worker cluster and to a concrete standalone process. -/
theorem c7_witness :
    (dispatch { initSt with isMaster := false, numOfWorkers := 4 } (.sigReq "SIGHUP")).1 =
      { initSt with isMaster := false, numOfWorkers := 4 } ∧
    (dispatch { initSt with isMaster := false, numOfWorkers := 4 } (.sigReq "SIGHUP")).2.sends = [] ∧
    (reloadFun { initSt with isMaster := true, numOfWorkers := 0 } Effects.empty).1 =
      { initSt with isMaster := true, numOfWorkers := 0 } ∧
    (reloadFun { initSt with isMaster := true, numOfWorkers := 0 } Effects.empty).2.events = [] ∧
    (reloadFun { initSt with isMaster := true, numOfWorkers := 0 } Effects.empty).2.sends = [] := by
  have h1 := c7_reload_non_master { initSt with isMaster := false, numOfWorkers := 4 }
    Effects.empty (by decide)
  have h2 := c7_reload_non_master { initSt with isMaster := true, numOfWorkers := 0 }
    Effects.empty (by decide)
  refine ⟨(h1.2.2.2.2 rfl).1, (h1.2.2.2.2 rfl).2.2, h2.1, ?_, ?_⟩
  · simpa [Effects.empty] using h2.2.1
  · simpa [Effects.empty] using h2.2.2.1

/-- C8: an inbound message whose payload fails JSON deserialization is
logged as a warning and dropped by both the master-side and the
worker-side listeners — the handler returns normally (it is a total
function whose only effect is the warning; in the source the unparsed
string falls through to a command lookup that finds nothing) — and a
later well-formed message is processed exactly as it would have been
without the malformed one in front. -/
theorem c8_malformed_dropped :
    (∀ (s : St) (raw : String) (eff : Effects),
      masterOnMessage s (.malformed raw) eff =
        (s, eff.log .warn "message data not JSON")) ∧
    (∀ (s : St) (raw : String) (eff : Effects),
      workerOnMessage s (.malformed raw) eff =
        (s, eff.log .warn "message data not JSON")) ∧
    (∀ (s : St) (raw : String) (ms : List RawMsg),
      processMasterMsgs s (.malformed raw :: ms) =
        ((processMasterMsgs s ms).1,
          (Effects.empty.log .warn "message data not JSON") ++ (processMasterMsgs s ms).2)) ∧
    (∀ (s : St) (raw : String) (ms : List RawMsg),
      processWorkerMsgs s (.malformed raw :: ms) =
        ((processWorkerMsgs s ms).1,
          (Effects.empty.log .warn "message data not JSON") ++ (processWorkerMsgs s ms).2)) := by
  refine ⟨fun s raw eff => rfl, fun s raw eff => rfl,
    fun s raw ms => rfl, fun s raw ms => rfl⟩

/-- C9: starting as the primary process with config max = 0 emits
exactly the two non-ready emissions (the cluster event in state
non.ready and the cluster.non.ready event) — in particular exactly one
cluster.non.ready event — and afterwards isCluster() and isMaster()
both return false. -/
theorem c9_standalone_start (dflt : Int) (a b : Option Bool) (tasks : List STask) :
    (eeStart true dflt ⟨some 0, a, b⟩ { initSt with shutdownTasks := tasks }).2.events =
      [.cluster "non.ready" none, .clusterNonReady] ∧
    ((eeStart true dflt ⟨some 0, a, b⟩ { initSt with shutdownTasks := tasks }).2.events.filter
      Ev.isNonReadyEv).length = 1 ∧
    eeIsCluster (eeStart true dflt ⟨some 0, a, b⟩ { initSt with shutdownTasks := tasks }).1 = false ∧
    eeIsMaster (eeStart true dflt ⟨some 0, a, b⟩ { initSt with shutdownTasks := tasks }).1 = false := by
  refine ⟨?_, ?_, ?_, ?_⟩ <;>
    simp [eeStart, eeIsCluster, eeIsMaster, Effects.log, Effects.event, Effects.empty,
      Ev.isNonReadyEv]

/-- C10: starting as the primary process with config max = 1 spawns no
workers (empty registry, no fork) and emits exactly the same non-ready
events as the standalone max = 0 case, yet isCluster() and isMaster()
both return true afterwards: the non-ready event does not imply that
the role queries report standalone mode. -/
theorem c10_single_worker_start (dflt : Int) (a b : Option Bool) (tasks : List STask) :
    (eeStart true dflt ⟨some 1, a, b⟩ { initSt with shutdownTasks := tasks }).2.events =
      (eeStart true dflt ⟨some 0, a, b⟩ { initSt with shutdownTasks := tasks }).2.events ∧
    (eeStart true dflt ⟨some 1, a, b⟩ { initSt with shutdownTasks := tasks }).2.events =
      [.cluster "non.ready" none, .clusterNonReady] ∧
    (eeStart true dflt ⟨some 1, a, b⟩ { initSt with shutdownTasks := tasks }).1.workerMap = [] ∧
    (eeStart true dflt ⟨some 1, a, b⟩ { initSt with shutdownTasks := tasks }).1.nextId = 1 ∧
    eeIsCluster (eeStart true dflt ⟨some 1, a, b⟩ { initSt with shutdownTasks := tasks }).1 = true ∧
    eeIsMaster (eeStart true dflt ⟨some 1, a, b⟩ { initSt with shutdownTasks := tasks }).1 = true := by
  refine ⟨?_, ?_, ?_, ?_, ?_, ?_⟩ <;>
    simp [eeStart, eeIsCluster, eeIsMaster, Effects.log, Effects.event, Effects.empty, initSt]
